import Mathlib

/-!
Verification of the read-only Flask JSON API in server.py.

The server exposes four GET endpoints over two flat JSON files
(knowledge.json and tenants.json):

  - GET /api/knowledge    serves the parsed contents of knowledge.json
  - GET /api/tenants      serves the parsed contents of tenants.json
  - GET /api/tenants/id   linear scan of tenants.json for the first object
                          whose id field equals the path segment
  - GET /api/health       constant body, status 200

We embed the handlers as pure functions over an explicit two-file state.
Faults that the Python code would raise (IOError on a missing file,
JSONDecodeError on a malformed file, KeyError / TypeError during the
tenant scan) are modelled as a fault-carrying response constructor, since
no handler catches them.
-/

set_option autoImplicit false

namespace Server

/-- A parsed JSON value, as produced by json.load. Numbers are modelled as
integers; no claim depends on numeric fine structure. Objects are modelled
as association lists with first-key-wins lookup. -/
inductive Json where
  | null : Json
  | bool : Bool → Json
  | num : Int → Json
  | str : String → Json
  | arr : List Json → Json
  | obj : List (String × Json) → Json

/-- The unhandled exception kinds the handlers can let escape. -/
inductive Fault where
  | ioError : Fault
  | parseError : Fault
  | keyError : Fault
  | typeError : Fault
deriving DecidableEq

/-- The observable state of one backing file: absent, present but not
valid JSON, or present with a parsed JSON value. -/
inductive FileContent where
  | missing : FileContent
  | invalid : FileContent
  | json : Json → FileContent

/-- The two backing files under the db directory. -/
structure Db where
  knowledge : FileContent
  tenants : FileContent

/-- Embeds open plus json.load on one file: IOError if the file is
missing, JSONDecodeError if it is not valid JSON, else the parsed value. -/
def json_load : FileContent → Except Fault Json
  | .missing => .error .ioError
  | .invalid => .error .parseError
  | .json j => .ok j

/-- Embeds read_json from server.py: resolve the file name under the db
directory and parse it. Only the two files of the repository exist. -/
def read_json (db : Db) (file : String) : Except Fault Json :=
  if file = "knowledge.json" then json_load db.knowledge
  else if file = "tenants.json" then json_load db.tenants
  else .error .ioError

/-- Embeds write_json from server.py (dead code: no route calls it). -/
def write_json (db : Db) (file : String) (data : Json) : Db :=
  if file = "knowledge.json" then { db with knowledge := .json data }
  else if file = "tenants.json" then { db with tenants := .json data }
  else db

/-- First-match lookup in an object field list, as a Python dict lookup. -/
def lookupField : List (String × Json) → String → Option Json
  | [], _ => none
  | (k, v) :: rest, key => if k = key then some v else lookupField rest key

/-- Embeds the Python subscript t[key] with a string key: KeyError when a
dict lacks the key, TypeError when the value is not a dict. -/
def getItem : Json → String → Except Fault Json
  | .obj fields, key =>
    match lookupField fields key with
    | some v => .ok v
    | none => .error .keyError
  | _, _ => .error .typeError

/-- Python equality of a JSON value against a str: only an equal string
compares equal; any other type compares unequal without raising. -/
def pyEqStr : Json → String → Bool
  | .str s, t => s == t
  | _, _ => false

/-- Python iteration over a JSON value: a list yields its elements, a dict
its keys, a string its characters; other values raise TypeError. -/
def pyIter : Json → Except Fault (List Json)
  | .arr xs => .ok xs
  | .obj fields => .ok (fields.map (fun kv => Json.str kv.1))
  | .str s => .ok (s.toList.map (fun c => Json.str c.toString))
  | _ => .error .typeError

/-- Python falsiness of a JSON value, as tested by the `if not tenant`
guard: None, False, 0, empty string, empty list, empty dict are falsy. -/
def pyFalsy : Json → Bool
  | .null => true
  | .bool b => !b
  | .num n => n == 0
  | .str s => s.isEmpty
  | .arr xs => xs.isEmpty
  | .obj fields => fields.isEmpty

/-- Embeds next((t for t in tenants if t[id] == tenant_id), None): scan
left to right, evaluating t[id] lazily; the first raised exception
escapes, the first match stops the scan, exhaustion yields None. -/
def firstMatch (tenant_id : String) : List Json → Except Fault (Option Json)
  | [] => .ok none
  | t :: rest =>
    match getItem t "id" with
    | .error e => .error e
    | .ok v =>
      if pyEqStr v tenant_id then .ok (some t) else firstMatch tenant_id rest

/-- An HTTP response: a status with a JSON body, or an unhandled fault
propagated to the framework (its default error response, typically 500). -/
inductive Response where
  | ok : Nat → Json → Response
  | fault : Fault → Response

/-- The structured 404 body of the tenant-by-id route. -/
def tenantNotFound : Json := .obj [("error", .str "Tenant not found")]

/-- Embeds get_knowledge: serve knowledge.json verbatim with status 200. -/
def get_knowledge (db : Db) : Response :=
  match read_json db "knowledge.json" with
  | .error f => .fault f
  | .ok j => .ok 200 j

/-- Embeds get_tenants: serve tenants.json verbatim with status 200. -/
def get_tenants (db : Db) : Response :=
  match read_json db "tenants.json" with
  | .error f => .fault f
  | .ok j => .ok 200 j

/-- Embeds get_tenant: read tenants.json, scan for the first element whose
id field equals tenant_id, answer 404 when the scan yields None or a falsy
value, else 200 with the matching object. -/
def get_tenant (db : Db) (tenant_id : String) : Response :=
  match read_json db "tenants.json" with
  | .error f => .fault f
  | .ok tenants =>
    match pyIter tenants with
    | .error e => .fault e
    | .ok ts =>
      match firstMatch tenant_id ts with
      | .error e => .fault e
      | .ok none => .ok 404 tenantNotFound
      | .ok (some t) =>
        if pyFalsy t then .ok 404 tenantNotFound else .ok 200 t

/-- Embeds health_check: constant body, status 200, no file access. -/
def health_check : Response := .ok 200 (.obj [("status", .str "ok")])

/-- One incoming request, identifying the route and its path argument. -/
inductive Request where
  | knowledgeReq : Request
  | tenantsReq : Request
  | tenantReq : String → Request
  | healthReq : Request

/-- Dispatch one request: the response together with the file state after
the request. No handler writes, so the state component is the input state. -/
def handle (db : Db) : Request → Response × Db
  | .knowledgeReq => (get_knowledge db, db)
  | .tenantsReq => (get_tenants db, db)
  | .tenantReq tid => (get_tenant db tid, db)
  | .healthReq => (health_check, db)

/-- Process a list of requests in order, threading the file state. -/
def runAll (db : Db) : List Request → Db
  | [] => db
  | r :: rs => runAll (handle db r).2 rs

/-- The string id field of an object, when present. -/
def idOf (t : Json) : Option String :=
  match t with
  | .obj fields =>
    match lookupField fields "id" with
    | some (.str s) => some s
    | _ => none
  | _ => none

/-- A JSON value that is an object carrying a string id field. -/
def isTenantObj (t : Json) : Bool := (idOf t).isSome

/-- Whether an element carries the given id. -/
def hasId (tid : String) (t : Json) : Bool := idOf t == some tid

/-! ### Helper lemmas about the scan -/

theorem hasId_iff {tid : String} {t : Json} :
    hasId tid t = true ↔ idOf t = some tid := by
  simp [hasId]

theorem idOf_eq_some {t : Json} {s : String} (h : idOf t = some s) :
    getItem t "id" = Except.ok (Json.str s) ∧ pyFalsy t = false := by
  unfold idOf at h
  split at h
  case h_1 fields =>
    split at h
    case h_1 s2 heq =>
      injection h with h
      subst h
      constructor
      · simp [getItem, heq]
      · cases fields with
        | nil => simp [lookupField] at heq
        | cons kv rest => rfl
    case h_2 => exact absurd h (by simp)
  case h_2 => exact absurd h (by simp)

theorem isTenantObj_exists {t : Json} (h : isTenantObj t = true) :
    ∃ s, idOf t = some s := by
  simpa [isTenantObj, Option.isSome_iff_exists] using h

/-- The scan yields None when every element is an object with a string id
and none of those ids equals the requested one. -/
theorem firstMatch_no_match {tid : String} {ts : List Json}
    (hwf : ∀ t ∈ ts, isTenantObj t = true)
    (hno : ∀ t ∈ ts, hasId tid t = false) :
    firstMatch tid ts = Except.ok none := by
  induction ts with
  | nil => rfl
  | cons t rest ih =>
    obtain ⟨s, hs⟩ := isTenantObj_exists (hwf t (List.mem_cons_self t rest))
    have hget := (idOf_eq_some hs).1
    have hne : s ≠ tid := by
      intro hc
      subst hc
      have htrue : hasId s t = true := hasId_iff.mpr hs
      have hfalse := hno t (List.mem_cons_self t rest)
      simp [htrue] at hfalse
    simp only [firstMatch]
    rw [hget]
    have hpy : pyEqStr (Json.str s) tid = false := by
      simp [pyEqStr, hne]
    simp only [hpy, Bool.false_eq_true, if_false]
    exact ih (fun u hu => hwf u (List.mem_cons_of_mem t hu))
      (fun u hu => hno u (List.mem_cons_of_mem t hu))

/-- The scan stops at the first matching element: whatever comes after it
in the file does not matter and need not even be well formed. -/
theorem firstMatch_found {tid : String} {t : Json} (rest : List Json)
    (ht : hasId tid t = true) :
    ∀ pre : List Json,
      (∀ u ∈ pre, isTenantObj u = true ∧ hasId tid u = false) →
      firstMatch tid (pre ++ t :: rest) = Except.ok (some t) := by
  intro pre
  induction pre with
  | nil =>
    intro _
    have hid := hasId_iff.mp ht
    have hget := (idOf_eq_some hid).1
    show firstMatch tid (t :: rest) = Except.ok (some t)
    simp only [firstMatch]
    rw [hget]
    simp [pyEqStr]
  | cons u pre2 ih =>
    intro hpre
    obtain ⟨hwu, hnu⟩ := hpre u (List.mem_cons_self u pre2)
    obtain ⟨s, hs⟩ := isTenantObj_exists hwu
    have hget := (idOf_eq_some hs).1
    have hne : s ≠ tid := by
      intro hc
      subst hc
      have htrue : hasId s u = true := hasId_iff.mpr hs
      simp [htrue] at hnu
    show firstMatch tid (u :: (pre2 ++ t :: rest)) = Except.ok (some t)
    simp only [firstMatch]
    rw [hget]
    have hpy : pyEqStr (Json.str s) tid = false := by
      simp [pyEqStr, hne]
    simp only [hpy, Bool.false_eq_true, if_false]
    exact ih (fun v hv => hpre v (List.mem_cons_of_mem u hv))

/-- When exactly one element of a well-formed tenant list carries the
requested id, the scan yields precisely that element. -/
theorem firstMatch_unique {tid : String} {ts : List Json} {t : Json}
    (hwf : ∀ u ∈ ts, isTenantObj u = true)
    (hcount : ts.countP (hasId tid) = 1)
    (hmem : t ∈ ts) (ht : hasId tid t = true) :
    firstMatch tid ts = Except.ok (some t) := by
  induction ts with
  | nil => cases hmem
  | cons u rest ih =>
    obtain ⟨s, hs⟩ := isTenantObj_exists (hwf u (List.mem_cons_self u rest))
    have hget := (idOf_eq_some hs).1
    by_cases hu : hasId tid u = true
    · have hrest0 : rest.countP (hasId tid) = 0 := by
        rw [List.countP_cons, if_pos hu] at hcount
        omega
      have ht_eq : t = u := by
        rcases List.mem_cons.mp hmem with h | h
        · exact h
        · exact absurd ht (List.countP_eq_zero.mp hrest0 t h)
      have := firstMatch_found rest hu []
        (fun v hv => absurd hv (List.not_mem_nil v))
      simpa [ht_eq] using this
    · have hu2 : hasId tid u = false := by simpa using hu
      have hrest1 : rest.countP (hasId tid) = 1 := by
        rw [List.countP_cons, if_neg hu] at hcount
        omega
      have htmem : t ∈ rest := by
        rcases List.mem_cons.mp hmem with h | h
        · subst h; exact absurd ht hu
        · exact h
      have hne : s ≠ tid := by
        intro hc
        subst hc
        exact hu (hasId_iff.mpr hs)
      simp only [firstMatch]
      rw [hget]
      have hpy : pyEqStr (Json.str s) tid = false := by
        simp [pyEqStr, hne]
      simp only [hpy, Bool.false_eq_true, if_false]
      exact ih (fun v hv => hwf v (List.mem_cons_of_mem u hv)) hrest1 htmem

/-- Unfolding of the tenant route when the tenant file holds a JSON list. -/
theorem get_tenant_eq_scan {db : Db} {ts : List Json} {tid : String}
    (hdb : db.tenants = FileContent.json (Json.arr ts)) :
    get_tenant db tid =
      match firstMatch tid ts with
      | .error e => Response.fault e
      | .ok none => Response.ok 404 tenantNotFound
      | .ok (some t) =>
        if pyFalsy t then Response.ok 404 tenantNotFound
        else Response.ok 200 t := by
  unfold get_tenant read_json json_load pyIter
  rw [hdb]
  simp

/-! ### The concrete scenario of the spec -/

/-- The first tenant of the concrete scenario in the spec. -/
def tenantAcme : Json := Json.obj [("id", Json.str "t1"), ("name", Json.str "Acme")]

/-- The second tenant of the concrete scenario in the spec. -/
def tenantGlobex : Json := Json.obj [("id", Json.str "t2"), ("name", Json.str "Globex")]

/-- A second object that reuses the id of tenantAcme. -/
def tenantAcmeDup : Json := Json.obj [("id", Json.str "t1"), ("name", Json.str "AcmeCopy")]

/-- Backing files for the scenario: tenants.json holds the two tenants. -/
def scenarioDb : Db :=
  ⟨FileContent.json (Json.arr []), FileContent.json (Json.arr [tenantAcme, tenantGlobex])⟩

/-! ### The claims -/

/-- Claim C1: when the tenant file is a JSON list of objects each carrying
a string id field, and the requested id occurs in exactly one of those
objects, GET /api/tenants/id returns status 200 with that object as the
body. -/
theorem C1_get_tenant_unique_hit (db : Db) (ts : List Json) (tid : String) (t : Json)
    (hdb : db.tenants = FileContent.json (Json.arr ts))
    (hwf : ∀ u ∈ ts, isTenantObj u = true)
    (hcount : ts.countP (hasId tid) = 1)
    (hmem : t ∈ ts) (ht : hasId tid t = true) :
    get_tenant db tid = Response.ok 200 t := by
  rw [get_tenant_eq_scan hdb, firstMatch_unique hwf hcount hmem ht]
  have hfal : pyFalsy t = false := (idOf_eq_some (hasId_iff.mp ht)).2
  simp [hfal]

/-- Claim C1 witness: in the scenario of the spec, GET /api/tenants/t2
returns 200 with the Globex object. -/
theorem C1_witness :
    get_tenant scenarioDb "t2" = Response.ok 200 tenantGlobex :=
  C1_get_tenant_unique_hit scenarioDb [tenantAcme, tenantGlobex] "t2" tenantGlobex
    rfl (by decide) rfl (List.mem_cons_of_mem _ (List.mem_cons_self _ _)) rfl

/-- Claim C2: when the tenant file is a JSON list of objects each carrying
a string id field and the requested id equals none of those ids,
GET /api/tenants/id returns status 404 with exactly the structured
Tenant-not-found body. -/
theorem C2_get_tenant_miss (db : Db) (ts : List Json) (tid : String)
    (hdb : db.tenants = FileContent.json (Json.arr ts))
    (hwf : ∀ u ∈ ts, isTenantObj u = true)
    (hno : ∀ u ∈ ts, hasId tid u = false) :
    get_tenant db tid =
      Response.ok 404 (Json.obj [("error", Json.str "Tenant not found")]) := by
  rw [get_tenant_eq_scan hdb, firstMatch_no_match hwf hno]
  rfl

/-- Claim C2 witness: in the scenario of the spec, GET /api/tenants/t9
returns 404 with the structured error body. -/
theorem C2_witness :
    get_tenant scenarioDb "t9" =
      Response.ok 404 (Json.obj [("error", Json.str "Tenant not found")]) :=
  C2_get_tenant_miss scenarioDb [tenantAcme, tenantGlobex] "t9"
    rfl (by decide) (by decide)

/-- Claim C3: with two or more objects carrying the requested id, the
first one in file order is returned, and nothing after it, well formed or
not, influences the response. -/
theorem C3_first_duplicate_wins (db : Db) (pre rest : List Json) (tid : String) (t : Json)
    (hdb : db.tenants = FileContent.json (Json.arr (pre ++ t :: rest)))
    (hpre : ∀ u ∈ pre, isTenantObj u = true ∧ hasId tid u = false)
    (ht : hasId tid t = true)
    (_hdup : ∃ u ∈ rest, hasId tid u = true) :
    get_tenant db tid = Response.ok 200 t ∧
      ∀ (db2 : Db) (rest2 : List Json),
        db2.tenants = FileContent.json (Json.arr (pre ++ t :: rest2)) →
        get_tenant db2 tid = Response.ok 200 t := by
  have hmain : ∀ (db0 : Db) (r0 : List Json),
      db0.tenants = FileContent.json (Json.arr (pre ++ t :: r0)) →
      get_tenant db0 tid = Response.ok 200 t := by
    intro db0 r0 h0
    rw [get_tenant_eq_scan h0, firstMatch_found r0 ht pre hpre]
    have hfal : pyFalsy t = false := (idOf_eq_some (hasId_iff.mp ht)).2
    simp [hfal]
  exact ⟨hmain db rest hdb, fun db2 rest2 h2 => hmain db2 rest2 h2⟩

/-- Claim C3 witness: with two objects carrying id t1, the first one is
served. -/
theorem C3_witness :
    get_tenant
      ⟨FileContent.json (Json.arr []),
        FileContent.json (Json.arr [tenantAcme, tenantAcmeDup])⟩ "t1" =
      Response.ok 200 tenantAcme :=
  (C3_first_duplicate_wins
      ⟨FileContent.json (Json.arr []),
        FileContent.json (Json.arr [tenantAcme, tenantAcmeDup])⟩
      [] [tenantAcmeDup] "t1" tenantAcme rfl
      (fun u hu => absurd hu (List.not_mem_nil u)) rfl
      ⟨tenantAcmeDup, List.mem_cons_self _ _, rfl⟩).1

/-- Claim C4: GET /api/health returns status 200 with exactly the
status-ok body in every file state, leaves the files untouched, and its
response never depends on the files, so it performs no observable read. -/
theorem C4_health_constant (db db2 : Db) :
    handle db Request.healthReq =
      (Response.ok 200 (Json.obj [("status", Json.str "ok")]), db) ∧
    (handle db Request.healthReq).1 = (handle db2 Request.healthReq).1 :=
  ⟨rfl, rfl⟩

/-- Claim C5: whenever a backing file parses to a JSON value, the
corresponding collection endpoint answers 200 with exactly that value. -/
theorem C5_collections_passthrough (db : Db) (j k : Json) :
    (db.knowledge = FileContent.json j → get_knowledge db = Response.ok 200 j) ∧
    (db.tenants = FileContent.json k → get_tenants db = Response.ok 200 k) := by
  constructor
  · intro h
    unfold get_knowledge read_json json_load
    simp [h]
  · intro h
    unfold get_tenants read_json json_load
    simp [h]

/-- Claim C5 witness: both collection routes serve the scenario files. -/
theorem C5_witness :
    get_knowledge scenarioDb = Response.ok 200 (Json.arr []) ∧
    get_tenants scenarioDb =
      Response.ok 200 (Json.arr [tenantAcme, tenantGlobex]) :=
  ⟨(C5_collections_passthrough scenarioDb (Json.arr [])
      (Json.arr [tenantAcme, tenantGlobex])).1 rfl,
   (C5_collections_passthrough scenarioDb (Json.arr [])
      (Json.arr [tenantAcme, tenantGlobex])).2 rfl⟩

/-- Claim C6: no request writes: after any of the four routes handles a
request, both backing files hold exactly what they held before. -/
theorem C6_no_write_path (db : Db) (r : Request) :
    ((handle db r).2).knowledge = db.knowledge ∧
    ((handle db r).2).tenants = db.tenants := by
  cases r <;> exact ⟨rfl, rfl⟩

/-- Claim C7: the lookup is exact, case-sensitive string equality: when
every stored id is a string other than the requested one, even one that
differs only in letter case, the route answers 404, never a near-match. -/
theorem C7_exact_case_sensitive_match (db : Db) (ts : List Json) (tid : String)
    (hdb : db.tenants = FileContent.json (Json.arr ts))
    (hids : ∀ u ∈ ts, ∃ s, idOf u = some s ∧ s ≠ tid) :
    get_tenant db tid =
      Response.ok 404 (Json.obj [("error", Json.str "Tenant not found")]) := by
  have hwf : ∀ u ∈ ts, isTenantObj u = true := by
    intro u hu
    obtain ⟨s, hs, _⟩ := hids u hu
    simp [isTenantObj, hs]
  have hno : ∀ u ∈ ts, hasId tid u = false := by
    intro u hu
    obtain ⟨s, hs, hne⟩ := hids u hu
    simp [hasId, hs, hne]
  rw [get_tenant_eq_scan hdb, firstMatch_no_match hwf hno]
  rfl

/-- Claim C7 witness: a stored id differing from the request only in
letter case is not matched. -/
theorem C7_witness :
    get_tenant
      ⟨FileContent.json (Json.arr []),
        FileContent.json (Json.arr [Json.obj [("id", Json.str "T1")]])⟩ "t1" =
      Response.ok 404 (Json.obj [("error", Json.str "Tenant not found")]) :=
  C7_exact_case_sensitive_match
    ⟨FileContent.json (Json.arr []),
      FileContent.json (Json.arr [Json.obj [("id", Json.str "T1")]])⟩
    [Json.obj [("id", Json.str "T1")]] "t1" rfl
    (fun u hu => by
      rw [List.mem_singleton] at hu
      subst hu
      exact ⟨"T1", rfl, by decide⟩)

/-- Claim C8: a missing backing file surfaces as an unhandled IOError and
a malformed one as an unhandled parse error, on every route that reads the
file; no 200 and no 404 is produced. -/
theorem C8_fault_propagation (db : Db) (tid : String) :
    (db.knowledge = FileContent.missing →
      get_knowledge db = Response.fault Fault.ioError) ∧
    (db.knowledge = FileContent.invalid →
      get_knowledge db = Response.fault Fault.parseError) ∧
    (db.tenants = FileContent.missing →
      get_tenants db = Response.fault Fault.ioError ∧
      get_tenant db tid = Response.fault Fault.ioError) ∧
    (db.tenants = FileContent.invalid →
      get_tenants db = Response.fault Fault.parseError ∧
      get_tenant db tid = Response.fault Fault.parseError) := by
  refine ⟨fun h => ?_, fun h => ?_, fun h => ⟨?_, ?_⟩, fun h => ⟨?_, ?_⟩⟩
  · unfold get_knowledge read_json json_load
    simp [h]
  · unfold get_knowledge read_json json_load
    simp [h]
  · unfold get_tenants read_json json_load
    simp [h]
  · unfold get_tenant read_json json_load
    simp [h]
  · unfold get_tenants read_json json_load
    simp [h]
  · unfold get_tenant read_json json_load
    simp [h]

/-- Claim C8 witness: both fault kinds on both files, on all three
reading routes. -/
theorem C8_witness :
    get_knowledge ⟨FileContent.missing, FileContent.missing⟩ =
      Response.fault Fault.ioError ∧
    get_knowledge ⟨FileContent.invalid, FileContent.invalid⟩ =
      Response.fault Fault.parseError ∧
    get_tenants ⟨FileContent.missing, FileContent.missing⟩ =
      Response.fault Fault.ioError ∧
    get_tenant ⟨FileContent.missing, FileContent.missing⟩ "t1" =
      Response.fault Fault.ioError ∧
    get_tenants ⟨FileContent.invalid, FileContent.invalid⟩ =
      Response.fault Fault.parseError ∧
    get_tenant ⟨FileContent.invalid, FileContent.invalid⟩ "t1" =
      Response.fault Fault.parseError :=
  ⟨(C8_fault_propagation ⟨FileContent.missing, FileContent.missing⟩ "t1").1 rfl,
   (C8_fault_propagation ⟨FileContent.invalid, FileContent.invalid⟩ "t1").2.1 rfl,
   ((C8_fault_propagation ⟨FileContent.missing, FileContent.missing⟩ "t1").2.2.1 rfl).1,
   ((C8_fault_propagation ⟨FileContent.missing, FileContent.missing⟩ "t1").2.2.1 rfl).2,
   ((C8_fault_propagation ⟨FileContent.invalid, FileContent.invalid⟩ "t1").2.2.2 rfl).1,
   ((C8_fault_propagation ⟨FileContent.invalid, FileContent.invalid⟩ "t1").2.2.2 rfl).2⟩

/-- Handling requests never changes the file state. -/
theorem runAll_preserves (rs : List Request) : ∀ db : Db, runAll db rs = db := by
  induction rs with
  | nil => intro db; rfl
  | cons r rs ih =>
    intro db
    have h2 : (handle db r).2 = db := by cases r <;> rfl
    show runAll (handle db r).2 rs = db
    rw [h2, ih db]

/-- Claim C9: every endpoint is deterministic and stateless: with the same
backing files, the same request gets the same response no matter which
requests were handled in between. -/
theorem C9_stateless_deterministic (db : Db) (rs1 rs2 : List Request) (r : Request) :
    (handle (runAll db rs1) r).1 = (handle (runAll db rs2) r).1 := by
  rw [runAll_preserves rs1 db, runAll_preserves rs2 db]

/-- Claim C10: a valid JSON tenant list can make the scan raise: a
non-object element before the first match raises TypeError, and an object
lacking the id key raises KeyError, instead of a 200 or 404 answer. -/
theorem C10_bad_element_raises :
    get_tenant
      ⟨FileContent.json Json.null,
        FileContent.json (Json.arr [Json.num 5,
          Json.obj [("id", Json.str "t1")]])⟩ "t1" =
      Response.fault Fault.typeError ∧
    get_tenant
      ⟨FileContent.json Json.null,
        FileContent.json (Json.arr [Json.obj [("name", Json.str "x")],
          Json.obj [("id", Json.str "t1")]])⟩ "t1" =
      Response.fault Fault.keyError :=
  ⟨rfl, rfl⟩

end Server
